import Mathlib

/-!
Shallow embedding of `src/evm-to-evm-generic-mesage-passing/src/transfer.ts`
(repository youssefea/sygma-call).

The script orchestrates a cross-chain generic-message transfer:
module-level startup reads `PRIVATE_KEY` from the environment and throws
when it is missing (lines 14-18); `genericMessage` reads the destination
contract's baseline value, submits the bridging transaction, awaits the
completion watcher `waitUntilBridged` (lines 51-77), then registers a
5000 ms `setInterval` status poller (lines 117-133) and performs a final
read (line 134).

Destination values are `BigNumber` wide unsigned integers; they are
modelled as `Nat`, and `BigNumber.eq` is `Nat` equality.  A fallible
destination read (`fetchAfterValue`, line 43) is modelled as a function
`Nat → Except Unit Nat` giving the outcome of the r-th read of the run:
`.ok v` when the RPC call resolves with value `v`, `.error ()` when it
rejects.
-/

/-- The `ethers` `BigNumber.toNumber()` conversion (used at line 65): converts to a JS
number, throwing an overflow fault when the value does not fit in 53 bits
(the underlying BN.js `toNumber` asserts the value is below `2 ^ 53`). -/
def toNumber (v : Nat) : Except Unit Nat :=
  if v < 2 ^ 53 then .ok v else .error ()

/-- Default `intervalDuration` of `waitUntilBridged` (line 53). -/
def POLL_INTERVAL_MS : Nat := 15000

/-- Default `attempts` of `waitUntilBridged` (line 54). -/
def MAX_ATTEMPTS : Nat := 8

/-- How a run of `waitUntilBridged` ends.

* `bridged v` — the loop broke at line 68 after observing `v` different
  from the baseline and printing `new Date(v.toNumber())` successfully;
* `timeout` — the loop broke at line 74 after the attempt counter
  exceeded `attempts` ("transaction is taking too much time to bridge!");
* `readFailure r` — the awaited `fetchAfterValue()` at line 60 rejected
  on the r-th read; there is no try/catch, so the rejection propagates
  out of `waitUntilBridged`;
* `overflowFault v` — the loop observed `v` different from the baseline
  but `v.toNumber()` at line 65 threw, so the success branch raised
  instead of completing. -/
inductive WatchResult where
  | bridged (value : Nat)
  | timeout
  | readFailure (readIndex : Nat)
  | overflowFault (value : Nat)
deriving DecidableEq, Repr

/-- Outcome of `waitUntilBridged` together with the number of read
operations (`fetchAfterValue()` calls) it performed. -/
structure WatchRun where
  result : WatchResult
  reads : Nat
deriving DecidableEq, Repr

/-- The `for (;;)` loop body of `waitUntilBridged` (lines 58-76).
`i` is the attempt counter (line 56), `r` counts the reads already
performed, so `fetch r` is the value produced by the read at line 60 of
the current iteration.  Each iteration: sleep, read; if the value differs
from `valueBefore` take the success branch (lines 61-68, where
`toNumber` may throw); otherwise `i++` and break with a timeout once
`i > attempts` (lines 70-75). -/
def watchGo (fetch : Nat → Except Unit Nat) (valueBefore : Nat)
    (attempts : Nat) (i r : Nat) : WatchRun :=
  match fetch r with
  | .error _ => ⟨.readFailure r, r + 1⟩
  | .ok v =>
    if v ≠ valueBefore then
      match toNumber v with
      | .ok _ => ⟨.bridged v, r + 1⟩
      | .error _ => ⟨.overflowFault v, r + 1⟩
    else
      if i + 1 > attempts then ⟨.timeout, r + 1⟩
      else watchGo fetch valueBefore attempts (i + 1) (r + 1)
termination_by attempts + 1 - i
decreasing_by omega

/-- Function `waitUntilBridged` (lines 51-77): run the polling loop with the
attempt counter starting at 0. -/
def waitUntilBridged (fetch : Nat → Except Unit Nat) (valueBefore : Nat)
    (attempts : Nat) : WatchRun :=
  watchGo fetch valueBefore attempts 0 0

/-- Total time spent sleeping by a watcher run: the loop sleeps
`intervalDuration` ms (line 59) before every read. -/
def watchElapsedMs (run : WatchRun) (intervalMs : Nat) : Nat :=
  run.reads * intervalMs

/-- Scenario A read results: baseline 104, reads 0 and 1 return 104, read
2 (poll attempt 3) returns 105. -/
def scenAfetch (r : Nat) : Except Unit Nat :=
  if r < 2 then .ok 104 else .ok 105

/-- Scenario B read results: the destination value never changes. -/
def scenBfetch (_ : Nat) : Except Unit Nat := .ok 104

/-- Read results in which reads 0 and 1 return the unchanged baseline
104 and read 2 rejects (a transient RPC error). -/
def scenDfetch (r : Nat) : Except Unit Nat :=
  if r < 2 then .ok 104 else .error ()

/-- Read results in which read 0 returns the unchanged baseline 104 and
read 1 returns `2 ^ 53`, a changed value outside the JS safe-integer
range. -/
def scenEfetch (r : Nat) : Except Unit Nat :=
  if r < 1 then .ok 104 else .ok (2 ^ 53)

/-! ## Status poller (lines 117-133)

`genericMessage` registers `setInterval(..., 5000)` whose callback calls
`getStatus(response.hash)`; one tick's query outcome is modelled as
`Except Unit (List StatusRecord)`: `.error ()` when the promise rejects
(handled by the `.catch` at lines 130-132), `.ok data` otherwise. -/

/-- One record returned by the Sygma status index
(`TransferStatusResponse`); the callback only inspects `.status`. -/
structure StatusRecord where
  status : String
deriving DecidableEq, Repr

/-- Outcome of one `getStatus` query. -/
abbrev StatusResponse := Except Unit (List StatusRecord)

/-- What one tick of the interval callback prints. -/
inductive TickReport where
  | transferStatus (s : String)
  | waitingForIndex
  | queryError
deriving DecidableEq, Repr

/-- Effects of one tick: the line printed, whether `clearInterval(id)`
ran, and the argument of `process.exit` when it ran. -/
structure TickOutcome where
  report : TickReport
  stop : Bool
  exitCode : Option Nat
deriving DecidableEq, Repr

/-- One execution of the interval callback (lines 118-132).  `data[0]`
truthy means the list is non-empty; then the status is printed and, when
it equals the exact string "executed", `clearInterval(id)` and
`process.exit(0)` run (lines 122-125).  An empty result prints "Waiting
for the TX to be indexed" (line 127); a rejected query is logged by the
`.catch` (line 131) and nothing else happens. -/
def statusTick (resp : StatusResponse) : TickOutcome :=
  match resp with
  | .error _ => ⟨.queryError, false, none⟩
  | .ok [] => ⟨.waitingForIndex, false, none⟩
  | .ok (first :: _) =>
    if first.status = "executed" then
      ⟨.transferStatus first.status, true, some 0⟩
    else
      ⟨.transferStatus first.status, false, none⟩

/-- Fixed cadence of the status poller (line 133). -/
def STATUS_INTERVAL_MS : Nat := 5000

/-- Time (ms after registration) at which `setInterval` fires tick `n`:
the cadence is fixed, independent of the tick outcomes (no backoff). -/
def statusTickTime (n : Nat) : Nat :=
  STATUS_INTERVAL_MS * (n + 1)

/-- Whether the interval is still registered when tick `n` would fire:
true until some earlier tick ran `clearInterval(id)`. -/
def pollerActive (resp : Nat → StatusResponse) : Nat → Bool
  | 0 => true
  | n + 1 => pollerActive resp n && !(statusTick (resp n)).stop

/-- Lines printed by the poller during its first `n` tick slots (ticks
fire only while the interval is registered). -/
def pollerLog (resp : Nat → StatusResponse) : Nat → List TickReport
  | 0 => []
  | n + 1 =>
    if pollerActive resp n then
      pollerLog resp n ++ [(statusTick (resp n)).report]
    else
      pollerLog resp n

/-- Scenario C query outcomes: `[]` for the first four polls, then
`[{status: "pending"}]`, then `[{status: "executed"}]`. -/
def scenCresp (n : Nat) : StatusResponse :=
  if n < 4 then .ok []
  else if n = 4 then .ok [⟨"pending"⟩]
  else .ok [⟨"executed"⟩]

/-- Query outcomes in which every `getStatus` call rejects. -/
def allErrResp : Nat → StatusResponse := fun _ => .error ()

/-! ## Run orchestration (lines 79-138)

The order in which `genericMessage` issues its external calls is fixed
by the source: the baseline read (line 81), `messageTransfer.init`
(line 86), `getFee` (line 101), `wallet.sendTransaction` (line 108) are
each awaited in sequence; then `waitUntilBridged` is awaited to
completion (line 115) before `setInterval` is registered (line 117); the
final read (line 134) is issued synchronously right after registration,
while the interval's first tick fires only 5000 ms later. -/

/-- An external call issued by the script, in issue order. -/
inductive Event where
  | readBaseline
  | sdkInit
  | feeQuery
  | submitTx
  | watchRead (r : Nat)
  | watchTerminated
  | readFinal
  | statusQuery (n : Nat)
deriving DecidableEq, Repr

/-- Whether an event is a query of the status index. -/
def Event.isStatusQuery : Event → Bool
  | .statusQuery _ => true
  | _ => false

/-- The sequence of external calls issued by a run of `genericMessage`
in which the watcher performs `watchReads` reads and then returns
normally, and the status poller fires `statusQueries` ticks. -/
def genericMessageEvents (watchReads statusQueries : Nat) : List Event :=
  Event.readBaseline :: Event.sdkInit :: Event.feeQuery :: Event.submitTx ::
    ((List.range watchReads).map Event.watchRead ++
      Event.watchTerminated :: Event.readFinal ::
        (List.range statusQueries).map Event.statusQuery)

/-! ## Module startup (lines 12-41)

`dotenv.config()` populates the environment, then `privateKey` is read
and `if (!privateKey) throw new Error(...)` runs (lines 14-18) before
any provider, contract or wallet is constructed and before
`genericMessage()` is invoked (line 138).  A JS string is falsy exactly
when it is empty, and an absent variable is `undefined` (falsy). -/

/-- JS truthiness of an optional environment-variable string. -/
def envTruthy (s : Option String) : Bool :=
  match s with
  | none => false
  | some v => v ≠ ""

/-- Model of `a || b` on an optional environment string (lines 33-34): the
default is used when the variable is absent or falsy. -/
def envOrDefault (s : Option String) (dflt : String) : String :=
  match s with
  | none => dflt
  | some v => if v = "" then dflt else v

/-- Module-level configuration produced when startup succeeds. -/
structure RunConfig where
  privateKey : String
  sepoliaRpcUrl : String
  holeskyRpcUrl : String
deriving DecidableEq, Repr

/-- Module startup (lines 12-41): throws the `ConfigurationError`
message when `PRIVATE_KEY` is falsy, otherwise yields the module
configuration with defaulted RPC URLs. -/
def moduleStartup (envPrivateKey envSepoliaUrl envHoleskyUrl : Option String) :
    Except String RunConfig :=
  if !(envTruthy envPrivateKey) then
    .error ("Missing environment variable: PRIVATE_KEY")
  else
    .ok { privateKey := (envPrivateKey.getD (""))
        , sepoliaRpcUrl := envOrDefault envSepoliaUrl ("https://sepolia.drpc.org")
        , holeskyRpcUrl := envOrDefault envHoleskyUrl ("https://holesky.drpc.org") }

/-- A whole script run: module startup first; only when it succeeds does
`genericMessage()` run and issue external calls.  The first component is
the list of external calls issued, the second the startup outcome. -/
def scriptRun (envPrivateKey envSepoliaUrl envHoleskyUrl : Option String)
    (watchReads statusQueries : Nat) : List Event × Except String RunConfig :=
  match moduleStartup envPrivateKey envSepoliaUrl envHoleskyUrl with
  | .error e => ([], .error e)
  | .ok cfg => (genericMessageEvents watchReads statusQueries, .ok cfg)

/-! ## Lemmas about the completion watcher loop -/

/-- A rejected read ends the loop at once: no retry, no attempt
consumed, result distinct from the unchanged/timeout outcome. -/
theorem watchGo_error (fetch : Nat → Except Unit Nat) (b attempts i r : Nat)
    (hf : fetch r = .error ()) :
    watchGo fetch b attempts i r = ⟨.readFailure r, r + 1⟩ := by
  rw [watchGo.eq_def, hf]

/-- A read that differs from the baseline and fits in 53 bits ends the
loop with the success outcome. -/
theorem watchGo_changed_ok (fetch : Nat → Except Unit Nat)
    (b attempts i r v : Nat) (hf : fetch r = .ok v) (hv : v ≠ b)
    (hsmall : v < 2 ^ 53) :
    watchGo fetch b attempts i r = ⟨.bridged v, r + 1⟩ := by
  have ht : toNumber v = Except.ok v := by
    simp only [toNumber]
    rw [if_pos hsmall]
  rw [watchGo.eq_def, hf]
  simp [hv, ht]

/-- A read that differs from the baseline but does not fit in 53 bits
makes `toNumber` throw inside the success branch. -/
theorem watchGo_changed_overflow (fetch : Nat → Except Unit Nat)
    (b attempts i r v : Nat) (hf : fetch r = .ok v) (hv : v ≠ b)
    (hbig : 2 ^ 53 ≤ v) :
    watchGo fetch b attempts i r = ⟨.overflowFault v, r + 1⟩ := by
  have ht : toNumber v = Except.error () := by
    simp only [toNumber]
    rw [if_neg (Nat.not_lt.mpr hbig)]
  rw [watchGo.eq_def, hf]
  simp [hv, ht]

/-- An unchanged read with the attempt budget exhausted breaks with the
timeout outcome. -/
theorem watchGo_unchanged_last (fetch : Nat → Except Unit Nat)
    (b attempts i r : Nat) (hf : fetch r = .ok b) (hlast : attempts ≤ i) :
    watchGo fetch b attempts i r = ⟨.timeout, r + 1⟩ := by
  rw [watchGo.eq_def, hf]
  simp [Nat.lt_succ_of_le hlast]

/-- An unchanged read with budget left continues the loop with `i` and
the read counter advanced. -/
theorem watchGo_unchanged_next (fetch : Nat → Except Unit Nat)
    (b attempts i r : Nat) (hf : fetch r = .ok b) (hcont : i < attempts) :
    watchGo fetch b attempts i r = watchGo fetch b attempts (i + 1) (r + 1) := by
  rw [watchGo.eq_def, hf]
  simp [Nat.not_lt.mpr hcont]

/-- Conversion `toNumber` succeeds exactly on values below `2 ^ 53`. -/
theorem toNumber_ok_iff (v : Nat) : (∃ n, toNumber v = Except.ok n) ↔ v < 2 ^ 53 := by
  constructor
  · intro ⟨n, hn⟩
    by_contra h
    simp only [toNumber, if_neg h] at hn
    exact Except.noConfusion hn
  · intro h
    exact ⟨v, by simp only [toNumber, if_pos h]⟩

/-- From attempt counter `i ≤ attempts`, the loop performs at most
`attempts + 1 - i` further reads. -/
theorem watchGo_reads_le (fetch : Nat → Except Unit Nat) (b attempts : Nat) :
    ∀ i r, i ≤ attempts →
      (watchGo fetch b attempts i r).reads ≤ r + (attempts + 1 - i) := by
  intro i r
  induction i, r using watchGo.induct fetch b attempts with
  | case1 i r a hf =>
    intro hi
    cases a
    rw [watchGo_error fetch b attempts i r hf]
    show r + 1 ≤ r + (attempts + 1 - i)
    omega
  | case2 i r v hf hv a ha =>
    intro hi
    have hsmall : v < 2 ^ 53 := (toNumber_ok_iff v).mp ⟨a, ha⟩
    rw [watchGo_changed_ok fetch b attempts i r v hf hv hsmall]
    show r + 1 ≤ r + (attempts + 1 - i)
    omega
  | case3 i r v hf hv a ha =>
    intro hi
    have hbig : 2 ^ 53 ≤ v := by
      by_contra h
      have := (toNumber_ok_iff v).mpr (by omega)
      rw [this.choose_spec] at ha
      exact Except.noConfusion ha
    rw [watchGo_changed_overflow fetch b attempts i r v hf hv hbig]
    show r + 1 ≤ r + (attempts + 1 - i)
    omega
  | case4 i r v hf hv hlast =>
    intro hi
    have hvb : v = b := not_not.mp hv
    rw [watchGo_unchanged_last fetch b attempts i r (hvb ▸ hf) (by omega)]
    show r + 1 ≤ r + (attempts + 1 - i)
    omega
  | case5 i r v hf hv hcont ih =>
    intro hi
    have hvb : v = b := not_not.mp hv
    rw [watchGo_unchanged_next fetch b attempts i r (hvb ▸ hf) (by omega)]
    have hrec := ih (by omega)
    omega

/-- The loop reports the success outcome only for a value it actually
read and only when that value differs from the baseline; the carried
value is the one produced by the last read performed. -/
theorem watchGo_bridged_ne (fetch : Nat → Except Unit Nat) (b attempts : Nat) :
    ∀ i r f, (watchGo fetch b attempts i r).result = .bridged f →
      f ≠ b ∧ fetch ((watchGo fetch b attempts i r).reads - 1) = Except.ok f := by
  intro i r
  induction i, r using watchGo.induct fetch b attempts with
  | case1 i r a hf =>
    intro f h
    cases a
    rw [watchGo_error fetch b attempts i r hf] at h
    exact absurd h (by simp)
  | case2 i r v hf hv a ha =>
    intro f h
    have hsmall : v < 2 ^ 53 := (toNumber_ok_iff v).mp ⟨a, ha⟩
    rw [watchGo_changed_ok fetch b attempts i r v hf hv hsmall] at h ⊢
    have hvf : v = f := by simpa using h
    refine ⟨hvf ▸ hv, ?_⟩
    show fetch (r + 1 - 1) = Except.ok f
    rw [Nat.add_sub_cancel, ← hvf]
    exact hf
  | case3 i r v hf hv a ha =>
    intro f h
    have hbig : 2 ^ 53 ≤ v := by
      by_contra hlt
      have hok := (toNumber_ok_iff v).mpr (by omega)
      rw [hok.choose_spec] at ha
      exact Except.noConfusion ha
    rw [watchGo_changed_overflow fetch b attempts i r v hf hv hbig] at h
    exact absurd h (by simp)
  | case4 i r v hf hv hlast =>
    intro f h
    have hvb : v = b := not_not.mp hv
    rw [watchGo_unchanged_last fetch b attempts i r (hvb ▸ hf) (by omega)] at h
    exact absurd h (by simp)
  | case5 i r v hf hv hcont ih =>
    intro f h
    have hvb : v = b := not_not.mp hv
    rw [watchGo_unchanged_next fetch b attempts i r (hvb ▸ hf) (by omega)] at h ⊢
    exact ih f h

/-- Reading the unchanged baseline `m` times in a row just advances the
attempt counter and the read counter, as long as budget remains. -/
theorem watchGo_unchanged_skip (fetch : Nat → Except Unit Nat)
    (b attempts : Nat) :
    ∀ m i r, (∀ j, j < m → fetch (r + j) = Except.ok b) → i + m ≤ attempts →
      watchGo fetch b attempts i r = watchGo fetch b attempts (i + m) (r + m) := by
  intro m
  induction m with
  | zero => intro i r _ _; rfl
  | succ m ih =>
    intro i r hpre hle
    have h0 : fetch r = Except.ok b := by simpa using hpre 0 (by omega)
    rw [watchGo_unchanged_next fetch b attempts i r h0 (by omega)]
    have hrest : ∀ j, j < m → fetch (r + 1 + j) = Except.ok b := by
      intro j hj
      have hj1 := hpre (j + 1) (by omega)
      rwa [show r + (j + 1) = r + 1 + j by omega] at hj1
    have hm := ih (i + 1) (r + 1) hrest (by omega)
    rwa [show i + 1 + m = i + (m + 1) by omega,
      show r + 1 + m = r + (m + 1) by omega] at hm

/-! ## Claim theorems: completion watcher -/

/-- C1: if the Completion Watcher reports success, the value `f`
obtained by its last read differs from the baseline `b` under
`BigNumber` numeric equality (modelled as `Nat` equality); the reported
value is exactly the one produced by the last read performed. -/
theorem c1_success_means_value_changed (fetch : Nat → Except Unit Nat)
    (b attempts f : Nat)
    (h : (waitUntilBridged fetch b attempts).result = .bridged f) :
    f ≠ b ∧
    fetch ((waitUntilBridged fetch b attempts).reads - 1) = Except.ok f :=
  watchGo_bridged_ne fetch b attempts 0 0 f h

/-- Witness for C1 on Scenario A: the watcher succeeds with value 105
against baseline 104, and 105 is the value of its last (third) read. -/
theorem c1_success_means_value_changed_witness :
    (105 : Nat) ≠ 104 ∧
    scenAfetch ((waitUntilBridged scenAfetch 104 MAX_ATTEMPTS).reads - 1) =
      Except.ok 105 :=
  c1_success_means_value_changed scenAfetch 104 MAX_ATTEMPTS 105
    (by simp [waitUntilBridged, watchGo, scenAfetch, toNumber, MAX_ATTEMPTS])

/-- C2: the watcher performs at most `attempts + 1` read operations (it
always terminates); with the defaults (interval 15000 ms, 8 attempts), a
value change on poll attempt 3 yields success after exactly 3 reads and
45000 ms of sleeping, and a never-changing value yields the timeout
outcome — not an error — after exactly 9 reads. -/
theorem c2_watcher_bounded_and_default_scenarios :
    (∀ (fetch : Nat → Except Unit Nat) (b attempts : Nat),
        (waitUntilBridged fetch b attempts).reads ≤ attempts + 1) ∧
    waitUntilBridged scenAfetch 104 MAX_ATTEMPTS = ⟨.bridged 105, 3⟩ ∧
    watchElapsedMs (waitUntilBridged scenAfetch 104 MAX_ATTEMPTS)
      POLL_INTERVAL_MS = 45000 ∧
    waitUntilBridged scenBfetch 104 MAX_ATTEMPTS = ⟨.timeout, 9⟩ := by
  refine ⟨fun fetch b attempts => ?_, ?_, ?_, ?_⟩
  · have hb := watchGo_reads_le fetch b attempts 0 0 (Nat.zero_le _)
    rw [waitUntilBridged]
    omega
  · simp [waitUntilBridged, watchGo, scenAfetch, toNumber, MAX_ATTEMPTS]
  · simp [watchElapsedMs, waitUntilBridged, watchGo, scenAfetch, toNumber,
      MAX_ATTEMPTS, POLL_INTERVAL_MS]
  · simp [waitUntilBridged, watchGo, scenBfetch, MAX_ATTEMPTS]

/-- C4: when a destination read rejects during polling (after `k` reads
of the unchanged baseline, with attempt budget left), the watcher stops
at once with the read-failure outcome: the read is not retried, no
further read happens, and the outcome is distinct from both the timeout
("value unchanged") outcome and the success outcome. -/
theorem c4_read_failure_propagates (fetch : Nat → Except Unit Nat)
    (b attempts k : Nat)
    (hpre : ∀ j, j < k → fetch j = Except.ok b)
    (hfail : fetch k = Except.error ())
    (hk : k ≤ attempts) :
    waitUntilBridged fetch b attempts = ⟨.readFailure k, k + 1⟩ ∧
    WatchResult.readFailure k ≠ WatchResult.timeout ∧
    ∀ f, WatchResult.readFailure k ≠ WatchResult.bridged f := by
  refine ⟨?_, by simp, by simp⟩
  have hshift := watchGo_unchanged_skip fetch b attempts k 0 0
    (fun j hj => by simpa using hpre j hj) (by omega)
  simp only [Nat.zero_add] at hshift
  rw [waitUntilBridged, hshift]
  exact watchGo_error fetch b attempts k k hfail

/-- Witness for C4: with reads 104, 104 then a rejected read, the
watcher ends with the read-failure outcome after exactly 3 reads. -/
theorem c4_read_failure_propagates_witness :
    waitUntilBridged scenDfetch 104 MAX_ATTEMPTS = ⟨.readFailure 2, 3⟩ ∧
    WatchResult.readFailure 2 ≠ WatchResult.timeout :=
  ⟨(c4_read_failure_propagates scenDfetch 104 MAX_ATTEMPTS 2
      (fun j hj => by simp only [scenDfetch]; rw [if_pos hj])
      (by simp [scenDfetch]) (by simp [MAX_ATTEMPTS])).1,
   (c4_read_failure_propagates scenDfetch 104 MAX_ATTEMPTS 2
      (fun j hj => by simp only [scenDfetch]; rw [if_pos hj])
      (by simp [scenDfetch]) (by simp [MAX_ATTEMPTS])).2.1⟩

/-- C9: on the success path the changed value is converted with
`BigNumber.toNumber()`; for a changed value of at least `2 ^ 53` that
conversion throws, so the watcher raises on its success branch (the
overflow outcome, never the normal success outcome). -/
theorem c9_toNumber_overflow_on_success_branch
    (fetch : Nat → Except Unit Nat) (b attempts k v : Nat)
    (hpre : ∀ j, j < k → fetch j = Except.ok b)
    (hread : fetch k = Except.ok v) (hne : v ≠ b) (hbig : 2 ^ 53 ≤ v)
    (hk : k ≤ attempts) :
    toNumber v = Except.error () ∧
    waitUntilBridged fetch b attempts = ⟨.overflowFault v, k + 1⟩ ∧
    ∀ f, WatchResult.overflowFault v ≠ WatchResult.bridged f := by
  refine ⟨?_, ?_, by simp⟩
  · simp only [toNumber]
    rw [if_neg (Nat.not_lt.mpr hbig)]
  · have hshift := watchGo_unchanged_skip fetch b attempts k 0 0
      (fun j hj => by simpa using hpre j hj) (by omega)
    simp only [Nat.zero_add] at hshift
    rw [waitUntilBridged, hshift]
    exact watchGo_changed_overflow fetch b attempts k k v hread hne hbig

/-- Witness for C9: after one unchanged read, the value `2 ^ 53` is
observed; `toNumber` throws and the run ends with the overflow fault. -/
theorem c9_toNumber_overflow_witness :
    toNumber (2 ^ 53) = Except.error () ∧
    waitUntilBridged scenEfetch 104 MAX_ATTEMPTS =
      ⟨.overflowFault (2 ^ 53), 2⟩ :=
  ⟨(c9_toNumber_overflow_on_success_branch scenEfetch 104 MAX_ATTEMPTS 1
      (2 ^ 53) (fun j hj => by simp only [scenEfetch]; rw [if_pos hj])
      (by simp [scenEfetch]) (by norm_num) (by norm_num)
      (by simp [MAX_ATTEMPTS])).1,
   (c9_toNumber_overflow_on_success_branch scenEfetch 104 MAX_ATTEMPTS 1
      (2 ^ 53) (fun j hj => by simp only [scenEfetch]; rw [if_pos hj])
      (by simp [scenEfetch]) (by norm_num) (by norm_num)
      (by simp [MAX_ATTEMPTS])).2.1⟩

/-! ## Lemmas about the status poller -/

/-- Once some tick has run `clearInterval(id)`, no later tick fires. -/
theorem pollerActive_false_after (resp : Nat → StatusResponse) (n : Nat)
    (h : pollerActive resp n = false) :
    ∀ m, pollerActive resp (n + m) = false := by
  intro m
  induction m with
  | zero => exact h
  | succ m ih =>
    show (pollerActive resp (n + m) && !(statusTick (resp (n + m))).stop) = false
    rw [ih]
    rfl

/-- After the interval has been cleared, the printed log never grows. -/
theorem pollerLog_frozen (resp : Nat → StatusResponse) (n : Nat)
    (h : pollerActive resp n = false) :
    ∀ m, pollerLog resp (n + m) = pollerLog resp n := by
  intro m
  induction m with
  | zero => rfl
  | succ m ih =>
    show (if pollerActive resp (n + m) then
        pollerLog resp (n + m) ++ [(statusTick (resp (n + m))).report]
      else pollerLog resp (n + m)) = pollerLog resp n
    rw [pollerActive_false_after resp n h m]
    simpa using ih

/-- If no tick ever stops the interval, every tick fires. -/
theorem pollerActive_of_no_stop (resp : Nat → StatusResponse)
    (h : ∀ n, (statusTick (resp n)).stop = false) :
    ∀ n, pollerActive resp n = true := by
  intro n
  induction n with
  | zero => rfl
  | succ n ih =>
    show (pollerActive resp n && !(statusTick (resp n)).stop) = true
    rw [ih, h n]
    rfl

/-- A tick runs `clearInterval(id)` exactly when the query resolved with
a non-empty record list whose first record's status is the exact string
"executed". -/
theorem statusTick_stop_iff (resp : StatusResponse) :
    (statusTick resp).stop = true ↔
      ∃ first rest, resp = Except.ok (first :: rest) ∧
        first.status = "executed" := by
  cases resp with
  | error e => simp [statusTick]
  | ok data =>
    cases data with
    | nil => simp [statusTick]
    | cons first rest =>
      by_cases hs : first.status = "executed"
      · simp only [statusTick, if_pos hs]
        simp [hs]
      · simp only [statusTick, if_neg hs]
        simp [hs]

/-! ## Claim theorems: status poller, startup, orchestration -/

/-- C6: an empty query result is reported as "not yet indexed"; a
non-empty result is reported with the first record's status; on the
query sequence `[], [], [], [], [{status: pending}], [{status:
executed}]` the poller prints the waiting line four times, then
"pending", then "executed", and then stops for good: the interval is no
longer registered at tick 6 and the log never grows afterwards. -/
theorem c6_status_poller_reports :
    (statusTick (Except.ok [])).report = .waitingForIndex ∧
    (∀ (first : StatusRecord) (rest : List StatusRecord),
        (statusTick (Except.ok (first :: rest))).report =
          .transferStatus first.status) ∧
    pollerLog scenCresp 6 =
      [.waitingForIndex, .waitingForIndex, .waitingForIndex,
       .waitingForIndex, .transferStatus ("pending"),
       .transferStatus ("executed")] ∧
    pollerActive scenCresp 5 = true ∧
    pollerActive scenCresp 6 = false ∧
    (∀ m, pollerLog scenCresp (6 + m) = pollerLog scenCresp 6) := by
  refine ⟨rfl, ?_, by decide, by decide, by decide, ?_⟩
  · intro first rest
    by_cases hs : first.status = "executed"
    · simp only [statusTick, if_pos hs]
    · simp only [statusTick, if_neg hs]
  · exact pollerLog_frozen scenCresp 6 (by decide)

/-- C7: when a poll's first record carries the terminal status
"executed", that tick runs `clearInterval(id)` (no later tick fires) and
`process.exit(0)`, exiting the process with success status. -/
theorem c7_executed_stops_polling_and_exits (resp : Nat → StatusResponse)
    (n : Nat) (first : StatusRecord) (rest : List StatusRecord)
    (hresp : resp n = Except.ok (first :: rest))
    (hst : first.status = "executed") :
    (statusTick (resp n)).stop = true ∧
    (statusTick (resp n)).exitCode = some 0 ∧
    pollerActive resp (n + 1) = false := by
  have h1 : (statusTick (resp n)).stop = true := by
    rw [hresp]
    simp only [statusTick, if_pos hst]
  refine ⟨h1, ?_, ?_⟩
  · rw [hresp]
    simp only [statusTick, if_pos hst]
  · show (pollerActive resp n && !(statusTick (resp n)).stop) = false
    rw [h1]
    simp

/-- Witness for C7 on the Scenario C query sequence: tick 5 sees
`[{status: "executed"}]`, stops the interval and exits with code 0. -/
theorem c7_executed_stops_polling_and_exits_witness :
    (statusTick (scenCresp 5)).stop = true ∧
    (statusTick (scenCresp 5)).exitCode = some 0 ∧
    pollerActive scenCresp 6 = false :=
  c7_executed_stops_polling_and_exits scenCresp 5 ⟨"executed"⟩ [] rfl rfl

/-- C8: a rejected status query is logged ("error:", line 131) and is
non-fatal: the tick neither clears the interval nor exits, every later
tick still fires and queries again, the log shows one error line per
tick, and the cadence stays a constant 5000 ms apart with no backoff and
no attempt cap. -/
theorem c8_query_error_logged_nonfatal (resp : Nat → StatusResponse)
    (herr : ∀ n, resp n = Except.error ()) :
    (∀ n, (statusTick (resp n)).report = .queryError ∧
        (statusTick (resp n)).stop = false ∧
        (statusTick (resp n)).exitCode = none) ∧
    (∀ n, pollerActive resp n = true) ∧
    (∀ n, pollerLog resp n = List.replicate n .queryError) ∧
    (∀ n, statusTickTime (n + 1) - statusTickTime n = STATUS_INTERVAL_MS) := by
  have htick : ∀ n, statusTick (resp n) = ⟨.queryError, false, none⟩ :=
    fun n => by rw [herr n]; rfl
  have hact : ∀ n, pollerActive resp n = true :=
    pollerActive_of_no_stop resp (fun n => by rw [htick n])
  refine ⟨fun n => by rw [htick n]; exact ⟨rfl, rfl, rfl⟩, hact, ?_, ?_⟩
  · intro n
    induction n with
    | zero => rfl
    | succ n ih =>
      show (if pollerActive resp n then
          pollerLog resp n ++ [(statusTick (resp n)).report]
        else pollerLog resp n) = List.replicate (n + 1) TickReport.queryError
      rw [hact n, if_pos rfl, ih, htick n, List.replicate_succ']
  · intro n
    simp only [statusTickTime, STATUS_INTERVAL_MS]
    omega

/-- Witness for C8: with every query rejecting, tick 7 still fires and
the first three ticks each logged one error line. -/
theorem c8_query_error_logged_nonfatal_witness :
    pollerActive allErrResp 7 = true ∧
    pollerLog allErrResp 3 = List.replicate 3 TickReport.queryError :=
  ⟨(c8_query_error_logged_nonfatal allErrResp (fun _ => rfl)).2.1 7,
   (c8_query_error_logged_nonfatal allErrResp (fun _ => rfl)).2.2.1 3⟩

/-- C10: the interval is cleared exactly when a poll's first record has
the exact status string "executed"; any tick that does not stop also
does not exit the process, and if no tick ever observes "executed" the
poller keeps ticking forever. -/
theorem c10_stop_only_on_executed :
    (∀ resp : StatusResponse, (statusTick resp).stop = true ↔
        ∃ first rest, resp = Except.ok (first :: rest) ∧
          first.status = "executed") ∧
    (∀ resp : StatusResponse, (statusTick resp).stop = false →
        (statusTick resp).exitCode = none) ∧
    (∀ resp : Nat → StatusResponse,
        (∀ n, (statusTick (resp n)).stop = false) →
        ∀ n, pollerActive resp n = true) := by
  refine ⟨statusTick_stop_iff, ?_, pollerActive_of_no_stop⟩
  intro resp h
  cases resp with
  | error e => rfl
  | ok data =>
    cases data with
    | nil => rfl
    | cons first rest =>
      by_cases hs : first.status = "executed"
      · simp only [statusTick, if_pos hs] at h
        exact absurd h (by simp)
      · simp only [statusTick, if_neg hs]

/-- Witness for C10: a first record "executed" stops the interval; a
first record "pending" does not exit; with every query rejecting, tick 4
still fires. -/
theorem c10_stop_only_on_executed_witness :
    (statusTick (Except.ok [StatusRecord.mk ("executed")])).stop = true ∧
    (statusTick (Except.ok [StatusRecord.mk ("pending")])).exitCode = none ∧
    pollerActive allErrResp 4 = true :=
  ⟨(c10_stop_only_on_executed.1 (Except.ok [StatusRecord.mk ("executed")])).mpr
      ⟨⟨"executed"⟩, [], rfl, rfl⟩,
   c10_stop_only_on_executed.2.1 (Except.ok [StatusRecord.mk ("pending")])
      (by decide),
   c10_stop_only_on_executed.2.2 allErrResp (fun n => rfl) 4⟩

/-- C5: when `PRIVATE_KEY` is absent from the environment (or empty,
which is equally falsy in JS), the script fails at module startup with
the `ConfigurationError` message and issues no external call at all: no
chain read, no transaction submission, no status query. -/
theorem c5_missing_private_key_no_network
    (envSepoliaUrl envHoleskyUrl : Option String)
    (watchReads statusQueries : Nat) :
    scriptRun none envSepoliaUrl envHoleskyUrl watchReads statusQueries =
      ([], Except.error ("Missing environment variable: PRIVATE_KEY")) ∧
    scriptRun (some ("")) envSepoliaUrl envHoleskyUrl watchReads statusQueries =
      ([], Except.error ("Missing environment variable: PRIVATE_KEY")) :=
  ⟨rfl, by simp [scriptRun, moduleStartup, envTruthy]⟩

/-- C3 counterexample: the claim that the Status Poller's queries are
not delayed until the Completion Watcher terminates is false on the
code.  In the concrete run with 9 watcher reads and 2 poller ticks,
status queries do occur, yet every one of them is issued strictly after
the watcher-terminated event: `genericMessage` awaits
`waitUntilBridged` (line 115) before `setInterval` is even registered
(line 117), so the watcher blocks the status poller. -/
theorem c3_counterexample :
    ((genericMessageEvents 9 2).any Event.isStatusQuery) = true ∧
    ∀ e ∈ genericMessageEvents 9 2, Event.isStatusQuery e = true →
      (genericMessageEvents 9 2).indexOf Event.watchTerminated <
        (genericMessageEvents 9 2).indexOf e := by decide

/-- C3 amended: submission strictly precedes both pollers (the watcher
reads and the status queries all come after the submission event), but
the two pollers are sequential rather than concurrent: every status
query is issued only after the Completion Watcher has terminated. -/
theorem c3_submission_precedes_pollers_sequential (w q n : Nat)
    (hn : n < q) :
    (∃ pre post,
        genericMessageEvents w q = pre ++ Event.submitTx :: post ∧
        (∀ k, Event.watchRead k ∉ pre) ∧
        (∀ m, Event.statusQuery m ∉ pre) ∧
        (∀ k, k < w → Event.watchRead k ∈ post) ∧
        Event.statusQuery n ∈ post) ∧
    (∃ pre post,
        genericMessageEvents w q = pre ++ Event.watchTerminated :: post ∧
        Event.submitTx ∈ pre ∧
        (∀ k, k < w → Event.watchRead k ∈ pre) ∧
        Event.statusQuery n ∈ post ∧
        (∀ m, Event.statusQuery m ∉ pre) ∧
        Event.watchTerminated ∉ pre) := by
  constructor
  · refine ⟨[Event.readBaseline, Event.sdkInit, Event.feeQuery],
      (List.range w).map Event.watchRead ++
        Event.watchTerminated :: Event.readFinal ::
          (List.range q).map Event.statusQuery, ?_, ?_, ?_, ?_, ?_⟩
    · rfl
    · intro k
      simp
    · intro m
      simp
    · intro k hk
      simp [List.mem_map, hk]
    · simp [List.mem_map, hn]
  · refine ⟨Event.readBaseline :: Event.sdkInit :: Event.feeQuery ::
      Event.submitTx :: (List.range w).map Event.watchRead,
      Event.readFinal :: (List.range q).map Event.statusQuery,
      ?_, ?_, ?_, ?_, ?_, ?_⟩
    · simp [genericMessageEvents]
    · simp
    · intro k hk
      simp [List.mem_map, hk]
    · simp [List.mem_map, hn]
    · intro m
      simp [List.mem_map]
    · simp [List.mem_map]

/-- Witness for the amended C3 at a concrete run (9 watcher reads, 2
poller ticks, first status query). -/
theorem c3_submission_precedes_pollers_sequential_witness :
    0 < 2 ∧
    ((∃ pre post,
        genericMessageEvents 9 2 = pre ++ Event.submitTx :: post ∧
        (∀ k, Event.watchRead k ∉ pre) ∧
        (∀ m, Event.statusQuery m ∉ pre) ∧
        (∀ k, k < 9 → Event.watchRead k ∈ post) ∧
        Event.statusQuery 0 ∈ post) ∧
    (∃ pre post,
        genericMessageEvents 9 2 = pre ++ Event.watchTerminated :: post ∧
        Event.submitTx ∈ pre ∧
        (∀ k, k < 9 → Event.watchRead k ∈ pre) ∧
        Event.statusQuery 0 ∈ post ∧
        (∀ m, Event.statusQuery m ∉ pre) ∧
        Event.watchTerminated ∉ pre)) :=
  ⟨by decide, c3_submission_precedes_pollers_sequential 9 2 0 (by decide)⟩
